import Mathlib

/-!
Verification of the escrow program in `programs/escrow`.

The program's on-chain state and its three instruction handlers are embedded
shallowly: the ledger visible to the program (token accounts and offer
records, keyed by address) is explicit state, and each handler is a function
from its Anchor context and the ledger to `Except ProgramError LedgerState`.
The handler bodies are translated directly from
`src/handlers/{make_offer,take_offer,refund_offer}.rs`: each body in the
source is literally `Ok(())` with the context unused, so in state-passing
style each returns the ledger unchanged.
-/

namespace Escrow

/-- The persisted Offer account type, from `src/state/offer.rs`:
`#[account] pub struct Offer {}` — it declares no data fields at all
(the field list is an empty block holding only a comment). -/
structure Offer
deriving DecidableEq, Repr

/-- An asset-holding account on the ledger: owning identity, asset (mint)
identity, and a u64 balance. -/
structure TokenAccount where
  owner : Nat
  mint : Nat
  amount : Nat
deriving DecidableEq, Repr

/-- The ledger state the program can observe or mutate: token accounts and
offer records, each keyed by address. -/
structure LedgerState where
  tokenAccounts : List (Nat × TokenAccount)
  offers : List (Nat × Offer)
deriving DecidableEq, Repr

/-- Balance of the token account stored at `addr`, if one exists. -/
def balanceAt (s : LedgerState) (addr : Nat) : Option Nat :=
  (s.tokenAccounts.lookup addr).map TokenAccount.amount

/-- The offer record stored at `addr`, if one exists. -/
def offerAt (s : LedgerState) (addr : Nat) : Option Offer :=
  s.offers.lookup addr

/-- Anchor accounts struct for the make_offer instruction, from
`src/handlers/make_offer.rs`: `pub struct MakeOffer {}` lists no accounts. -/
structure MakeOffer
deriving DecidableEq, Repr

/-- Anchor accounts struct for the take_offer instruction, from
`src/handlers/take_offer.rs`: `pub struct TakeOffer {}` lists no accounts. -/
structure TakeOffer
deriving DecidableEq, Repr

/-- Anchor accounts struct for the refund_offer instruction, from
`src/handlers/refund_offer.rs`: `pub struct RefundOffer {}` lists no accounts. -/
structure RefundOffer
deriving DecidableEq, Repr

/-- Anchor `Context<T>`: the program id together with the validated accounts
struct `T`. -/
structure Context (Accounts : Type) where
  program_id : Nat
  accounts : Accounts
deriving DecidableEq, Repr

/-- Modelled from the spec: the repository declares `pub mod error;` in
`src/lib.rs` but the module's source file is absent from the tree; §7 of the
spec gives this error taxonomy. -/
inductive ProgramError where
  | InvalidSameMint
  | InvalidOfferedAmount
  | InvalidWantedAmount
  | DuplicateOfferId
  | InsufficientFunds
  | AddressMismatch
  | Unauthorized
deriving DecidableEq, Repr

namespace handlers

/-- `src/handlers/make_offer.rs`:
`pub fn make_offer(_context: Context<MakeOffer>) -> Result<()> { Ok(()) }`.
The body reads no account, performs no transfer and no storage mutation, so
in the state-passing embedding it returns the ledger unchanged. -/
def make_offer ( _context : Context MakeOffer) (s : LedgerState) :
    Except ProgramError LedgerState :=
  .ok s

/-- `src/handlers/take_offer.rs`:
`pub fn take_offer(_context: Context<TakeOffer>) -> Result<()> { Ok(()) }`. -/
def take_offer ( _context : Context TakeOffer) (s : LedgerState) :
    Except ProgramError LedgerState :=
  .ok s

/-- `src/handlers/refund_offer.rs`:
`pub fn refund_offer(_context: Context<RefundOffer>) -> Result<()> { Ok(()) }`. -/
def refund_offer ( _context : Context RefundOffer) (s : LedgerState) :
    Except ProgramError LedgerState :=
  .ok s

end handlers

namespace escrow

/-- Entry point `make_offer` of the `#[program] pub mod escrow` block in
`src/lib.rs`: delegates to `handlers::make_offer::make_offer`. -/
def make_offer (context : Context MakeOffer) (s : LedgerState) :
    Except ProgramError LedgerState :=
  handlers.make_offer context s

/-- Entry point `take_offer` of `src/lib.rs`: delegates to
`handlers::take_offer::take_offer`. -/
def take_offer (context : Context TakeOffer) (s : LedgerState) :
    Except ProgramError LedgerState :=
  handlers.take_offer context s

/-- Entry point `refund_offer` of `src/lib.rs`: delegates to
`handlers::refund_offer::refund_offer`. -/
def refund_offer (context : Context RefundOffer) (s : LedgerState) :
    Except ProgramError LedgerState :=
  handlers.refund_offer context s

end escrow

/-!
Concrete scenario values, taken from the repository's own test suite
(`tests/test.rs`, `tests/helpers/escrow_test_helpers.rs`): Alice (identity 1)
starts with 10 units of token A (mint 100) and 0 of token B (mint 101); Bob
(identity 2) starts with 0 of A and 5 of B. Token-account addresses: 10
(Alice/A), 11 (Alice/B), 12 (Bob/A), 13 (Bob/B). The derived offer address is
50 and its vault address 51.
-/

/-- A concrete make_offer context (the accounts struct is empty). -/
def ctxMake : Context MakeOffer := ⟨8, ⟨⟩⟩

/-- A concrete take_offer context (the accounts struct is empty). -/
def ctxTake : Context TakeOffer := ⟨8, ⟨⟩⟩

/-- A concrete refund_offer context (the accounts struct is empty). -/
def ctxRefund : Context RefundOffer := ⟨8, ⟨⟩⟩

/-- The ledger right after test setup: Alice holds 10 A and 0 B, Bob holds
0 A and 5 B, and no offer exists. -/
def initialLedger : LedgerState :=
  { tokenAccounts :=
      [(10, ⟨1, 100, 10⟩), (11, ⟨1, 101, 0⟩), (12, ⟨2, 100, 0⟩), (13, ⟨2, 101, 5⟩)],
    offers := [] }

/-- The ledger the tests expect after Alice's successful
Make(id, 3 A offered, 2 B wanted): Alice debited to 7 A, the vault at
address 51 (owned by the offer address 50) holds 3 A, and an offer record
sits at address 50. -/
def openOfferLedger : LedgerState :=
  { tokenAccounts :=
      [(10, ⟨1, 100, 7⟩), (11, ⟨1, 101, 0⟩), (12, ⟨2, 100, 0⟩), (13, ⟨2, 101, 5⟩),
        (51, ⟨50, 100, 3⟩)],
    offers := [(50, Offer.mk)] }

/-- The ledger the tests expect after Alice's successful
Make(id, 1 A offered, 1000 B wanted) — the insufficient-funds take scenario:
Alice debited to 9 A, the vault holds 1 A, Bob still holds only 5 B. -/
def openLargeWantLedger : LedgerState :=
  { tokenAccounts :=
      [(10, ⟨1, 100, 9⟩), (11, ⟨1, 101, 0⟩), (12, ⟨2, 100, 0⟩), (13, ⟨2, 101, 5⟩),
        (51, ⟨50, 100, 1⟩)],
    offers := [(50, Offer.mk)] }

/-- Claim C1: for every input context, each of the three entry points returns
success and leaves the entire ledger state unchanged — the program's public
interface is the identity on all ledger state. -/
theorem entry_points_are_identity (cm : Context MakeOffer) (ct : Context TakeOffer)
    (cr : Context RefundOffer) (s : LedgerState) :
    escrow.make_offer cm s = .ok s ∧ escrow.take_offer ct s = .ok s ∧
      escrow.refund_offer cr s = .ok s :=
  ⟨rfl, rfl, rfl⟩

/-- Claim C1, witness: the identity behaviour at the concrete test-setup
ledger and concrete contexts. -/
theorem entry_points_are_identity_witness :
    escrow.make_offer ctxMake initialLedger = .ok initialLedger ∧
      escrow.take_offer ctxTake initialLedger = .ok initialLedger ∧
      escrow.refund_offer ctxRefund initialLedger = .ok initialLedger :=
  entry_points_are_identity ctxMake ctxTake ctxRefund initialLedger

/-- Claim C10: the persisted Offer account type declares no data fields, so
any two Offer values are equal — no id, maker, asset identity or amount is
stored, and no stored field can ever be read back. -/
theorem offer_type_has_no_fields (a b : Offer) : a = b := by
  cases a
  cases b
  rfl

/-- Claim C10, witness: the equality at two concrete Offer values. -/
theorem offer_type_has_no_fields_witness : Offer.mk = Offer.mk :=
  offer_type_has_no_fields Offer.mk Offer.mk

/-- Claim C2, divergence of the code from the claim: on the Open offer of the
take-success test (3 A in the vault for 2 B wanted, taker Bob holding 5 B),
take_offer returns Ok with the ledger unchanged — the offer record survives
at address 50, the vault still holds its 3 A, and Bob still holds 5 B: no
transfer happens and nothing is destroyed, where the claim requires the four
swap effects and destruction of the record and vault. -/
theorem take_offer_stub_moves_nothing :
    escrow.take_offer ctxTake openOfferLedger = .ok openOfferLedger ∧
      offerAt openOfferLedger 50 = some Offer.mk ∧
      balanceAt openOfferLedger 51 = some 3 ∧
      balanceAt openOfferLedger 13 = some 5 :=
  ⟨rfl, rfl, rfl, rfl⟩

/-- Claim C3, divergence of the code from the claim: make_offer has a single
unconditional success path, so on the same-mint / zero-amount inputs of the
validation tests it returns Ok instead of InvalidSameMint,
InvalidOfferedAmount or InvalidWantedAmount; indeed the handler (per the
`src/lib.rs` signature) receives no asset identities or amounts at all on
which a validation order could be defined. -/
theorem make_offer_stub_rejects_nothing :
    escrow.make_offer ctxMake initialLedger = .ok initialLedger :=
  rfl

/-- Claim C4, divergence of the code from the claim: issuing Make twice with
the same id (as in test_duplicate_offer_id_fails) leaves the composite call
succeeding — the second call returns Ok rather than DuplicateOfferId — and
zero live Offer Records exist afterwards rather than exactly one, since
neither call allocates anything. -/
theorem make_offer_stub_duplicate_id_both_succeed :
    (escrow.make_offer ctxMake initialLedger).bind (escrow.make_offer ctxMake) =
        .ok initialLedger ∧
      initialLedger.offers.length = 0 :=
  ⟨rfl, rfl⟩

/-- Claim C5, divergence of the code from the claim: refund_offer invoked on
Alice's Open offer by the non-maker Bob returns Ok instead of failing with
Unauthorized (the offer does remain and no balance moves, but only because
the handler does nothing for any caller — the Offer record stores no maker
against which a caller could even be checked). -/
theorem refund_offer_stub_ignores_caller :
    escrow.refund_offer ctxRefund openOfferLedger = .ok openOfferLedger ∧
      offerAt openOfferLedger 50 = some Offer.mk :=
  ⟨rfl, rfl⟩

/-- Claim C6, divergence of the code from the claim: on the
insufficient-funds Make scenario (Alice holds 10 A while the instruction
offers 1000 A), make_offer returns Ok instead of InsufficientFunds; Alice's
holding at address 10 still shows its full balance of 10. -/
theorem make_offer_stub_ignores_balance :
    escrow.make_offer ctxMake initialLedger = .ok initialLedger ∧
      balanceAt initialLedger 10 = some 10 :=
  ⟨rfl, rfl⟩

/-- Claim C7, divergence of the code from the claim: on the Open offer
wanting 1000 B while taker Bob holds only 5 B, take_offer returns Ok instead
of failing with InsufficientFunds (the balances and the record are unchanged,
but only because the handler is a no-op for every input, not because a
precondition aborted the operation). -/
theorem take_offer_stub_ignores_taker_balance :
    escrow.take_offer ctxTake openLargeWantLedger = .ok openLargeWantLedger ∧
      offerAt openLargeWantLedger 50 = some Offer.mk ∧
      balanceAt openLargeWantLedger 13 = some 5 :=
  ⟨rfl, rfl, rfl⟩

/-- Claim C8, divergence of the code from the claim: refund_offer invoked by
the stored maker on the Open offer of the refund-success test returns Ok with
the ledger unchanged — Alice's asset-A balance stays at 7 instead of being
restored to its pre-Make value 10, the vault keeps its 3 A, and the record at
address 50 is not destroyed. -/
theorem refund_offer_stub_restores_nothing :
    escrow.refund_offer ctxRefund openOfferLedger = .ok openOfferLedger ∧
      balanceAt openOfferLedger 10 = some 7 ∧
      balanceAt openOfferLedger 51 = some 3 ∧
      offerAt openOfferLedger 50 = some Offer.mk :=
  ⟨rfl, rfl, rfl, rfl⟩

/-- Claim C9, divergence of the code from the claim: a successful make_offer
call establishes no record/vault pair at all — after Make on the test-setup
ledger there is no Offer Record at the derived address 50 and no vault
account at 51 — so no Open offer whose vault holds amount_a_offered ever
comes to exist, and the claimed record-iff-funded-vault invariant can hold
only vacuously; the Offer type moreover stores no amount_a_offered to pin
the vault balance to. -/
theorem make_offer_stub_creates_no_pair :
    escrow.make_offer ctxMake initialLedger = .ok initialLedger ∧
      offerAt initialLedger 50 = none ∧
      balanceAt initialLedger 51 = none :=
  ⟨rfl, rfl, rfl⟩

end Escrow
